import Mathlib

/-!
Shallow embedding of the Compiler-Construction front end
(`lexer.py`, `parser.py`, `semantic_analysis.py`).

Python numbers are modelled by `PyVal`: `pint` for `int`, `pbool` for
`bool` (a subtype of `int` in Python), and `pfloat` carrying a rational.
All literal/arithmetic values arising in the verified programs are exact
in ℚ, so the binary-float representation is immaterial here.

The lexer works on `List Char`; regex patterns of `TOKENS` are embedded
as explicit matchers with Python `re` semantics at a position (`\b` word
boundaries inspect the character before the cursor, alternation is
first-match, `\d+(\.\d+)?` backtracks only by dropping the optional
fractional group). The scan loop and the recursive-descent parser are
written with an explicit fuel argument; one unit of fuel is spent per
loop iteration or recursive call, and every iteration consumes at least
one character/token, so the fuel supplied at the top level can never run
out. The `fuel` error constructors are modelling artifacts, never
produced on the inputs appearing below.
-/

namespace CompilerConstruction

/-- Python word character for `\b` and `\w`-style classes (ASCII scope,
which covers every character the verified sources contain). -/
def isWordChar (c : Char) : Bool :=
  c.isAlpha || c.isDigit || c = '_'

/-- Python `\s` (ASCII scope): space, tab, newline, carriage return,
vertical tab, form feed. -/
def isSpaceChar (c : Char) : Bool :=
  c = ' ' || c = '\t' || c = '\n' || c = '\r' || c = '\x0b' || c = '\x0c'

/-- Word boundary `\b` on the left of the cursor: true at the start of
the text or when the previously consumed character is not a word
character. -/
def boundaryBefore : Option Char → Bool
  | none => true
  | some c => !isWordChar c

/-- Word boundary `\b` on the right of a candidate match: true at end of
text or when the next character is not a word character. -/
def boundaryAfter : List Char → Bool
  | [] => true
  | c :: _ => !isWordChar c

/-- Does the first list occur as a prefix of the second? -/
def startsList : List Char → List Char → Bool
  | [], _ => true
  | _ :: _, [] => false
  | p :: ps, c :: cs => p = c && startsList ps cs

/-- The keyword alternatives of the first `TOKENS` pattern, in the order
they appear in the regex alternation. -/
def keywordList : List (List Char) :=
  [[ 'i', 'f'], [ 'e', 'l', 's', 'e'], [ 'w', 'h', 'i', 'l', 'e'],
   [ 'r', 'e', 't', 'u', 'r', 'n'], [ 'i', 'n', 't'],
   [ 'f', 'l', 'o', 'a', 't']]

/-- Pattern `\b(if|else|while|return|int|float)\b`: first alternative
that matches at the cursor and ends at a word boundary. -/
def matchKeyword (prev : Option Char) (cs : List Char) : Option (List Char) :=
  if boundaryBefore prev then
    keywordList.foldr
      (fun kw acc =>
        if startsList kw cs && boundaryAfter (cs.drop kw.length) then some kw else acc)
      none
  else none

/-- Pattern `\b[a-zA-Z_][a-zA-Z0-9_]*\b`: the boundary on the right is
automatic because the star is greedy over word characters. -/
def matchIdentifier (prev : Option Char) (cs : List Char) : Option (List Char) :=
  match cs with
  | [] => none
  | c :: rest =>
    if boundaryBefore prev && (c.isAlpha || c = '_') then
      some (c :: rest.takeWhile isWordChar)
    else none

/-- Pattern `\b\d+(\.\d+)?\b`: greedy digits, then an optional
fraction; if the trailing `\b` fails after the fraction, the regex
engine backtracks by dropping the whole optional group (shortening the
fractional digits always leaves a digit at the boundary, which fails
too), and after the integer part alone the boundary check is against
`.` or the original follower. -/
def matchNumber (prev : Option Char) (cs : List Char) : Option (List Char) :=
  let ds := cs.takeWhile Char.isDigit
  if boundaryBefore prev && !ds.isEmpty then
    match cs.drop ds.length with
    | '.' :: r2 =>
      let fs := r2.takeWhile Char.isDigit
      if !fs.isEmpty && boundaryAfter (r2.drop fs.length) then
        some (ds ++ '.' :: fs)
      else if !fs.isEmpty then
        -- boundary after the fraction failed: drop the optional group;
        -- the follower of `ds` is '.', not a word character
        some ds
      else
        some ds
    | rest1 => if boundaryAfter rest1 then some ds else none
  else none

/-- Pattern for the single-character operators `+ - * / = < > !`. -/
def matchOperator (_ : Option Char) (cs : List Char) : Option (List Char) :=
  match cs with
  | c :: _ =>
    if c = '+' || c = '-' || c = '*' || c = '/' || c = '=' || c = '<' || c = '>' || c = '!'
    then some [c] else none
  | [] => none

/-- Pattern `[()]`. -/
def matchParen (_ : Option Char) (cs : List Char) : Option (List Char) :=
  match cs with
  | c :: _ => if c = '(' || c = ')' then some [c] else none
  | [] => none

/-- Pattern for braces. -/
def matchBrace (_ : Option Char) (cs : List Char) : Option (List Char) :=
  match cs with
  | c :: _ => if c = '{' || c = '}' then some [c] else none
  | [] => none

/-- Pattern `;`. -/
def matchSemicolon (_ : Option Char) (cs : List Char) : Option (List Char) :=
  match cs with
  | c :: _ => if c = ';' then some [c] else none
  | [] => none

/-- Pattern `\s+`: a greedy, non-empty run of whitespace characters
(which may include newlines when the run starts at the cursor). -/
def matchWhitespace (_ : Option Char) (cs : List Char) : Option (List Char) :=
  let run := cs.takeWhile isSpaceChar
  if run.isEmpty then none else some run

/-- Fallback pattern `.`: any single character except a newline. -/
def matchUnknown (_ : Option Char) (cs : List Char) : Option (List Char) :=
  match cs with
  | c :: _ => if c = '\n' then none else some [c]
  | [] => none

/-- The `TOKENS` table of `lexer.py`, in its declared priority order. -/
def TOKENS : List (String × (Option Char → List Char → Option (List Char))) :=
  [(("KEYWORD"), matchKeyword),
   (("IDENTIFIER"), matchIdentifier),
   (("NUMBER"), matchNumber),
   (("OPERATOR"), matchOperator),
   (("PAREN"), matchParen),
   (("BRACE"), matchBrace),
   (("SEMICOLON"), matchSemicolon),
   (("WHITESPACE"), matchWhitespace),
   (("UNKNOWN"), matchUnknown)]

/-- A token as produced by `LexicalAnalyzer.tokenize`: the Python tuple
`(token_type, lexeme, line)`. -/
structure Token where
  ttype : String
  lexeme : String
  line : Nat
deriving DecidableEq

/-- Lexical-stage outcome. `illegalChar` mirrors the `raise` in
`tokenize` (line 45 of `lexer.py`); it is unreachable because the
`UNKNOWN` fallback matches every character reaching the pattern loop. -/
inductive LexErr where
  | illegalChar (c : Char) (line : Nat)
  | fuel
deriving DecidableEq

/-- First pattern of `TOKENS` matching at the cursor. -/
def tryTokens (prev : Option Char) (cs : List Char) : Option (String × List Char) :=
  TOKENS.foldr
    (fun (p : String × (Option Char → List Char → Option (List Char))) acc =>
      match p.2 prev cs with
      | some lex => some (p.1, lex)
      | none => acc)
    none

/-- The scan loop of `LexicalAnalyzer.tokenize`: a literal newline at
the cursor bumps the line counter and is consumed before any pattern is
tried; otherwise the first matching pattern consumes its lexeme and
emits a token unless it is `WHITESPACE`. `prev` is the character just
before the cursor, consulted by the `\b` assertions. -/
def tokenizeAux : Nat → Option Char → List Char → Nat → List Token →
    Except LexErr (List Token)
  | _, _, [], _, acc => .ok acc.reverse
  | 0, _, _ :: _, _, _ => .error .fuel
  | fuel + 1, prev, c :: cs, line, acc =>
    if c = '\n' then
      tokenizeAux fuel (some '\n') cs (line + 1) acc
    else
      match tryTokens prev (c :: cs) with
      | some (tt, lex) =>
        let rest := (c :: cs).drop lex.length
        let prev' := match lex.getLast? with
                     | some l => some l
                     | none => prev
        let acc' := if tt = ("WHITESPACE") then acc
                    else ⟨tt, ⟨lex⟩, line⟩ :: acc
        tokenizeAux fuel prev' rest line acc'
      | none => .error (.illegalChar c line)

/-- `LexicalAnalyzer`: the constructor strips leading whitespace
(`source_code.lstrip()`), then `tokenize` scans from position 0 at line
1. Fuel equal to the text length suffices because each round consumes at
least one character. -/
def tokenize (source_code : String) : Except LexErr (List Token) :=
  let stripped := source_code.data.dropWhile isSpaceChar
  tokenizeAux stripped.length none stripped 1 []

/-! ## Values and the AST -/

/-- A Python numeric value: `int`, `bool` (a subclass of `int` in
Python), or `float` (modelled by ℚ; all values arising here are exact). -/
inductive PyVal where
  | pint (n : Int)
  | pbool (b : Bool)
  | pfloat (q : ℚ)
deriving DecidableEq

/-- Does `isinstance(v, int)` hold?  Python `bool` is a subclass of
`int`. -/
def PyVal.isIntKind : PyVal → Bool
  | .pint _ => true
  | .pbool _ => true
  | .pfloat _ => false

/-- The value as an `Int`, for Python `int`-valued arithmetic (only
consulted when `isIntKind` holds). -/
def PyVal.toIntVal : PyVal → Int
  | .pint n => n
  | .pbool b => if b then 1 else 0
  | .pfloat _ => 0

/-- The value as a rational, for Python `float` arithmetic and for the
numeric comparisons, which compare `int` and `float` by value. -/
def PyVal.toRat : PyVal → ℚ
  | .pint n => (n : ℚ)
  | .pbool b => if b then 1 else 0
  | .pfloat q => q

/-- The semantic attributes written onto an expression node:
`evaluated_type` and `evaluated_value`. -/
structure Ann where
  evaluated_type : String
  evaluated_value : PyVal
deriving DecidableEq

/-- Expression nodes of the parser's dict-shaped AST (`number`,
`identifier`, `binary_operation`), with the optional semantic-analysis
attributes (`none` as parsed). -/
inductive Expr where
  | number (value : PyVal) (ann : Option Ann)
  | identifier (name : String) (ann : Option Ann)
  | binary_operation (operator : String) (left right : Expr) (ann : Option Ann)
deriving DecidableEq

/-- Statement nodes of the parser's AST. -/
inductive Stmt where
  | declaration (var_type var_name : String) (expression : Expr)
  | assignment (var_name : String) (expression : Expr)
  | if_statement (condition : Expr) (body : List Stmt)
      (else_body : Option (List Stmt))
  | return_statement (expression : Expr)

/-- The `evaluated_type`/`evaluated_value` attributes of the outermost
node of an expression. -/
def Expr.topAnn : Expr → Option Ann
  | .number _ a => a
  | .identifier _ a => a
  | .binary_operation _ _ _ a => a

/-- Write the two `evaluated_*` fields onto the outermost node of an
expression, as the analyzer's in-place dict mutations do. -/
def Expr.setTopAnn : Expr → Ann → Expr
  | .number v _, a => .number v (some a)
  | .identifier n _, a => .identifier n (some a)
  | .binary_operation op l r _, a => .binary_operation op l r (some a)

/-! ## Parser (`parser.py`, class SyntaxAnalyzer)

The Python object keeps `tokens`/`pos`/`current_token`; the embedding
passes the list of not-yet-consumed tokens, whose head is
`current_token` (`None` is the empty list). -/

/-- Parse-stage outcome. `mismatch` is the formatted error raised by
`consume`; `unexpectedKeyword`/`unexpectedToken` are the dispatch
errors of `parse_statement` and `parse_factor`; `noneSubscript` models
the Python `TypeError` from subscripting `current_token` when it is
`None` (as `consume` does in its error branch after the tokens run
out). -/
inductive ParseErr where
  | mismatch (line : Nat) (expected : String) (actual : Token)
  | unexpectedKeyword (kw : String) (line : Nat)
  | unexpectedToken (t : Token)
  | noneSubscript
  | fuel
deriving DecidableEq

/-- `consume(expected_type)`: return the current token and advance when
its type matches; otherwise build the error message — which itself
subscripts `current_token` and therefore crashes with a `TypeError`
when the tokens are exhausted. -/
def consume (expected : String) : List Token → Except ParseErr (Token × List Token)
  | t :: rest =>
    if t.ttype = expected then .ok (t, rest)
    else .error (.mismatch t.line expected t)
  | [] => .error .noneSubscript

/-- Python `float()` applied to a NUMBER lexeme `digits(.digits)?`. -/
def lexFloat (s : String) : ℚ :=
  let int_part := s.data.takeWhile (fun c => c ≠ '.')
  let ip : ℚ := (int_part.foldl (fun a c => 10 * a + (c.toNat - '0'.toNat)) 0 : Nat)
  match s.data.drop int_part.length with
  | '.' :: frac =>
    ip + ((frac.foldl (fun a c => 10 * a + (c.toNat - '0'.toNat)) 0 : Nat) : ℚ)
         / ((10 : ℚ) ^ frac.length)
  | _ => ip

mutual

/-- `parse_expression`: an arithmetic expression followed by a fold
over comparison operators. -/
def parse_expression : Nat → List Token → Except ParseErr (Expr × List Token)
  | 0, _ => .error .fuel
  | fuel + 1, ts => do
    let (left, ts1) ← parse_arithmetic_expression fuel ts
    expression_loop fuel left ts1

/-- The `while` loop of `parse_expression`, folding comparison
operators left-to-right.  The operator list is the one in the source,
including the two-character operators the lexer never produces. -/
def expression_loop : Nat → Expr → List Token → Except ParseErr (Expr × List Token)
  | 0, _, _ => .error .fuel
  | fuel + 1, left, ts =>
    match ts with
    | t :: _ =>
      if t.ttype = ("OPERATOR") &&
         (t.lexeme = ("<") || t.lexeme = (">") || t.lexeme = ("<=") ||
          t.lexeme = (">=") || t.lexeme = ("==") || t.lexeme = ("!=")) then do
        let (op, ts1) ← consume ("OPERATOR") ts
        let (right, ts2) ← parse_arithmetic_expression fuel ts1
        expression_loop fuel (.binary_operation op.lexeme left right none) ts2
      else .ok (left, ts)
    | [] => .ok (left, ts)

/-- `parse_arithmetic_expression`: a term followed by a fold over
`+`/`-`. -/
def parse_arithmetic_expression : Nat → List Token → Except ParseErr (Expr × List Token)
  | 0, _ => .error .fuel
  | fuel + 1, ts => do
    let (left, ts1) ← parse_term fuel ts
    arithmetic_loop fuel left ts1

/-- The `while` loop of `parse_arithmetic_expression`. -/
def arithmetic_loop : Nat → Expr → List Token → Except ParseErr (Expr × List Token)
  | 0, _, _ => .error .fuel
  | fuel + 1, left, ts =>
    match ts with
    | t :: _ =>
      if t.ttype = ("OPERATOR") && (t.lexeme = ("+") || t.lexeme = ("-")) then do
        let (op, ts1) ← consume ("OPERATOR") ts
        let (right, ts2) ← parse_term fuel ts1
        arithmetic_loop fuel (.binary_operation op.lexeme left right none) ts2
      else .ok (left, ts)
    | [] => .ok (left, ts)

/-- `parse_term`: a factor followed by a fold over `*`/`/`. -/
def parse_term : Nat → List Token → Except ParseErr (Expr × List Token)
  | 0, _ => .error .fuel
  | fuel + 1, ts => do
    let (left, ts1) ← parse_factor fuel ts
    term_loop fuel left ts1

/-- The `while` loop of `parse_term`. -/
def term_loop : Nat → Expr → List Token → Except ParseErr (Expr × List Token)
  | 0, _, _ => .error .fuel
  | fuel + 1, left, ts =>
    match ts with
    | t :: _ =>
      if t.ttype = ("OPERATOR") && (t.lexeme = ("*") || t.lexeme = ("/")) then do
        let (op, ts1) ← consume ("OPERATOR") ts
        let (right, ts2) ← parse_factor fuel ts1
        term_loop fuel (.binary_operation op.lexeme left right none) ts2
      else .ok (left, ts)
    | [] => .ok (left, ts)

/-- `parse_factor`: a NUMBER (its value passed through `float()`, so
always a Python float), an IDENTIFIER, or a parenthesized expression
(which returns the inner node itself, with no trace of the
parentheses).  With the tokens exhausted, `self.current_token[0]`
subscripts `None`. -/
def parse_factor : Nat → List Token → Except ParseErr (Expr × List Token)
  | 0, _ => .error .fuel
  | fuel + 1, ts =>
    match ts with
    | t :: _ =>
      if t.ttype = ("NUMBER") then do
        let (n, ts1) ← consume ("NUMBER") ts
        .ok (.number (.pfloat (lexFloat n.lexeme)) none, ts1)
      else if t.ttype = ("IDENTIFIER") then do
        let (i, ts1) ← consume ("IDENTIFIER") ts
        .ok (.identifier i.lexeme none, ts1)
      else if t.ttype = ("PAREN") && t.lexeme = ("(") then do
        let (_, ts1) ← consume ("PAREN") ts
        let (e, ts2) ← parse_expression fuel ts1
        let (_, ts3) ← consume ("PAREN") ts2
        .ok (e, ts3)
      else .error (.unexpectedToken t)
    | [] => .error .noneSubscript

end

mutual

/-- `parse_statement`: dispatch on the current token's kind and
lexeme. -/
def parse_statement : Nat → List Token → Except ParseErr (Stmt × List Token)
  | 0, _ => .error .fuel
  | fuel + 1, ts =>
    match ts with
    | t :: _ =>
      if t.ttype = ("KEYWORD") then
        if t.lexeme = ("int") || t.lexeme = ("float") then
          parse_declaration fuel ts
        else if t.lexeme = ("if") then
          parse_if_statement fuel ts
        else if t.lexeme = ("return") then
          parse_return_statement fuel ts
        else .error (.unexpectedKeyword t.lexeme t.line)
      else if t.ttype = ("IDENTIFIER") then
        parse_assignment fuel ts
      else .error (.unexpectedToken t)
    | [] => .error .noneSubscript

/-- `parse_declaration`: KEYWORD IDENTIFIER OPERATOR expression
SEMICOLON (`consume` checks only the token type, not the lexeme). -/
def parse_declaration : Nat → List Token → Except ParseErr (Stmt × List Token)
  | 0, _ => .error .fuel
  | fuel + 1, ts => do
    let (var_type, ts1) ← consume ("KEYWORD") ts
    let (var_name, ts2) ← consume ("IDENTIFIER") ts1
    let (_, ts3) ← consume ("OPERATOR") ts2
    let (expression, ts4) ← parse_expression fuel ts3
    let (_, ts5) ← consume ("SEMICOLON") ts4
    .ok (.declaration var_type.lexeme var_name.lexeme expression, ts5)

/-- `parse_assignment`: IDENTIFIER OPERATOR expression SEMICOLON. -/
def parse_assignment : Nat → List Token → Except ParseErr (Stmt × List Token)
  | 0, _ => .error .fuel
  | fuel + 1, ts => do
    let (var_name, ts1) ← consume ("IDENTIFIER") ts
    let (_, ts2) ← consume ("OPERATOR") ts1
    let (expression, ts3) ← parse_expression fuel ts2
    let (_, ts4) ← consume ("SEMICOLON") ts3
    .ok (.assignment var_name.lexeme expression, ts4)

/-- `parse_if_statement`: `if ( expression ) block (else block)?`,
with `else_body = None` when the `else` keyword is absent. -/
def parse_if_statement : Nat → List Token → Except ParseErr (Stmt × List Token)
  | 0, _ => .error .fuel
  | fuel + 1, ts => do
    let (_, ts1) ← consume ("KEYWORD") ts
    let (_, ts2) ← consume ("PAREN") ts1
    let (condition, ts3) ← parse_expression fuel ts2
    let (_, ts4) ← consume ("PAREN") ts3
    let (body, ts5) ← parse_block fuel ts4
    match ts5 with
    | t :: _ =>
      if t.ttype = ("KEYWORD") && t.lexeme = ("else") then do
        let (_, ts6) ← consume ("KEYWORD") ts5
        let (else_body, ts7) ← parse_block fuel ts6
        .ok (.if_statement condition body (some else_body), ts7)
      else .ok (.if_statement condition body none, ts5)
    | [] => .ok (.if_statement condition body none, ts5)

/-- `parse_return_statement`: `return expression ;`. -/
def parse_return_statement : Nat → List Token → Except ParseErr (Stmt × List Token)
  | 0, _ => .error .fuel
  | fuel + 1, ts => do
    let (_, ts1) ← consume ("KEYWORD") ts
    let (expression, ts2) ← parse_expression fuel ts1
    let (_, ts3) ← consume ("SEMICOLON") ts2
    .ok (.return_statement expression, ts3)

/-- `parse_block`: `{ statement* }`; the loop stops at any BRACE token
or at the end of the tokens (after which the closing `consume` fails). -/
def parse_block : Nat → List Token → Except ParseErr (List Stmt × List Token)
  | 0, _ => .error .fuel
  | fuel + 1, ts => do
    let (_, ts1) ← consume ("BRACE") ts
    let (block, ts2) ← block_loop fuel ts1
    let (_, ts3) ← consume ("BRACE") ts2
    .ok (block, ts3)

/-- The statement loop of `parse_block`. -/
def block_loop : Nat → List Token → Except ParseErr (List Stmt × List Token)
  | 0, _ => .error .fuel
  | fuel + 1, ts =>
    match ts with
    | t :: _ =>
      if t.ttype = ("BRACE") then .ok ([], ts)
      else do
        let (s, ts1) ← parse_statement fuel ts
        let (rest, ts2) ← block_loop fuel ts1
        .ok (s :: rest, ts2)
    | [] => .ok ([], ts)

/-- `parse_program`: statements until the tokens are exhausted. -/
def parse_program : Nat → List Token → Except ParseErr (List Stmt)
  | 0, _ => .error .fuel
  | fuel + 1, ts =>
    match ts with
    | [] => .ok []
    | _ :: _ => do
      let (s, ts1) ← parse_statement fuel ts
      let rest ← parse_program fuel ts1
      .ok (s :: rest)

end

/-! ## Semantic analyzer (`semantic_analysis.py`, class SemanticAnalyzer)

The object's `symbol_table` dict is threaded explicitly as an
association list with dict update semantics.  A raised exception
propagates together with the table as committed at the raise (the
Python object keeps its `symbol_table` attribute when `analyze`
raises). -/

/-- One `symbol_table` entry: the stored dict with the `type` and
`value` keys. -/
structure SymEntry where
  ty : String
  val : PyVal
deriving DecidableEq

/-- The symbol table: insertion-ordered mapping from variable name to
entry, with silent overwrite on re-insertion, like a Python dict. -/
abbrev SymTable := List (String × SymEntry)

/-- Dict lookup. -/
def lookupVar : SymTable → String → Option SymEntry
  | [], _ => none
  | (m, e) :: rest, n => if m = n then some e else lookupVar rest n

/-- Dict store `self.symbol_table[var_name] = ...`: overwrite the
existing binding or append a new one. -/
def insertVar : SymTable → String → SymEntry → SymTable
  | [], n, e => [(n, e)]
  | (m, d) :: rest, n, e =>
    if m = n then (n, e) :: rest else (m, d) :: insertVar rest n e

/-- Semantic-stage outcome.  The first six constructors are the
`Exception`s raised explicitly by the source; `stringIndicesTypeError`
is the Python `TypeError` raised when `analyze` is applied to a single
statement dict (as `analyze_if_statement` does for each element of a
non-empty body): iterating the dict yields its keys, and the first key,
the string `type`, is then subscripted with `type`;
`keyErrorLeft` is the `KeyError` from the `left` access when the
condition is not a `binary_operation` node; `zeroDivision` is Python's
`ZeroDivisionError` for `/`. -/
inductive SemErr where
  | typeMismatch (expr_type var_type var_name : String)
  | compareMismatch (left_type right_type : String)
  | binopMismatch (operator left_type right_type : String)
  | undeclaredVariable (name : String)
  | unsupportedOperator (operator : String)
  | unsupportedComparison (operator : String)
  | zeroDivision
  | stringIndicesTypeError
  | keyErrorLeft
deriving DecidableEq

/-- Python `+` on numbers: `int` (or `bool`) operands give an `int`,
otherwise a `float`. -/
def pyAdd (a b : PyVal) : PyVal :=
  if a.isIntKind && b.isIntKind then .pint (a.toIntVal + b.toIntVal)
  else .pfloat (a.toRat + b.toRat)

/-- Python `-` on numbers. -/
def pySub (a b : PyVal) : PyVal :=
  if a.isIntKind && b.isIntKind then .pint (a.toIntVal - b.toIntVal)
  else .pfloat (a.toRat - b.toRat)

/-- Python `*` on numbers. -/
def pyMul (a b : PyVal) : PyVal :=
  if a.isIntKind && b.isIntKind then .pint (a.toIntVal * b.toIntVal)
  else .pfloat (a.toRat * b.toRat)

/-- `perform_operation`: the four arithmetic operators; `/` is true
division (always a float, `ZeroDivisionError` on a zero divisor); any
other operator raises. -/
def perform_operation (left_value right_value : PyVal) (operator : String) :
    Except SemErr PyVal :=
  if operator = ("+") then .ok (pyAdd left_value right_value)
  else if operator = ("-") then .ok (pySub left_value right_value)
  else if operator = ("*") then .ok (pyMul left_value right_value)
  else if operator = ("/") then
    if right_value.toRat = 0 then .error .zeroDivision
    else .ok (.pfloat (left_value.toRat / right_value.toRat))
  else .error (.unsupportedOperator operator)

/-- `evaluate_condition`: only `<`, `>`, `==` are supported; the
comparisons are Python's value comparisons on numbers. -/
def evaluate_condition (left_value right_value : PyVal) (operator : String) :
    Except SemErr Bool :=
  if operator = ("<") then .ok (decide (left_value.toRat < right_value.toRat))
  else if operator = (">") then .ok (decide (right_value.toRat < left_value.toRat))
  else if operator = ("==") then .ok (decide (left_value.toRat = right_value.toRat))
  else .error (.unsupportedComparison operator)

/-- `evaluate_expression`: returns `(value, type)`; a number's type is
`int` exactly when its value is a Python `int` (`isinstance(v, int)`),
an identifier is looked up in the symbol table, and a binary operation
requires equal operand types before computing eagerly.  Sub-nodes are
only read, never annotated. -/
def evaluate_expression (st : SymTable) : Expr → Except SemErr (PyVal × String)
  | .number v _ =>
    .ok (v, if v.isIntKind then ("int") else ("float"))
  | .identifier n _ =>
    match lookupVar st n with
    | some e => .ok (e.val, e.ty)
    | none => .error (.undeclaredVariable n)
  | .binary_operation operator l r _ => do
    let (left_value, left_type) ← evaluate_expression st l
    let (right_value, right_type) ← evaluate_expression st r
    if left_type ≠ right_type then
      .error (.binopMismatch operator left_type right_type)
    else do
      let result ← perform_operation left_value right_value operator
      .ok (result, left_type)

/-- `analyze_declaration`: evaluate the right-hand side, require its
type to equal `var_type` exactly, and only then store the variable and
annotate the expression node. -/
def analyze_declaration (st : SymTable) (var_type var_name : String)
    (expression : Expr) : Except (SemErr × SymTable) (Stmt × SymTable) :=
  match evaluate_expression st expression with
  | .error e => .error (e, st)
  | .ok (expr_value, expr_type) =>
    if expr_type ≠ var_type then
      .error (.typeMismatch expr_type var_type var_name, st)
    else
      .ok (.declaration var_type var_name
             (expression.setTopAnn ⟨expr_type, expr_value⟩),
           insertVar st var_name ⟨var_type, expr_value⟩)

/-- `analyze_if_statement`: reads the `left` and `right` keys of the
condition (a `KeyError` unless it is a `binary_operation`), checks the
two types for equality, annotates the condition with `bool` and the
evaluated comparison, and then runs `self.analyze(body[i])` for every
element of the body (and of a truthy `else_body`) — which raises a
`TypeError` on the dict's first key whenever the sequence is
non-empty. -/
def analyze_if_statement (st : SymTable) (condition : Expr)
    (body : List Stmt) (else_body : Option (List Stmt)) :
    Except (SemErr × SymTable) (Stmt × SymTable) :=
  match condition with
  | .binary_operation operator l r _ =>
    (match evaluate_expression st l with
     | .error e => .error (e, st)
     | .ok (left_value, left_type) =>
       match evaluate_expression st r with
       | .error e => .error (e, st)
       | .ok (right_value, right_type) =>
         if left_type ≠ right_type then
           .error (.compareMismatch left_type right_type, st)
         else
           match evaluate_condition left_value right_value operator with
           | .error e => .error (e, st)
           | .ok b =>
             match body with
             | _ :: _ => .error (.stringIndicesTypeError, st)
             | [] =>
               match else_body with
               | some (_ :: _) => .error (.stringIndicesTypeError, st)
               | _ =>
                 .ok (.if_statement
                        (.binary_operation operator l r (some ⟨("bool"), .pbool b⟩))
                        body else_body, st))
  | _ => .error (.keyErrorLeft, st)

/-- `analyze_return_statement`: evaluate and annotate the returned
expression; no other effect. -/
def analyze_return_statement (st : SymTable) (expression : Expr) :
    Except (SemErr × SymTable) (Stmt × SymTable) :=
  match evaluate_expression st expression with
  | .error e => .error (e, st)
  | .ok (expr_value, expr_type) =>
    .ok (.return_statement (expression.setTopAnn ⟨expr_type, expr_value⟩), st)

/-- `analyze`: fold over the statement list, dispatching on the node's
`type` tag.  `assignment` nodes match no branch: they are skipped
without evaluation and omitted from the attributed AST. -/
def analyze : List Stmt → SymTable → Except (SemErr × SymTable) (List Stmt × SymTable)
  | [], st => .ok ([], st)
  | .declaration var_type var_name expression :: rest, st =>
    (match analyze_declaration st var_type var_name expression with
     | .error e => .error e
     | .ok (node, st1) =>
       match analyze rest st1 with
       | .error e => .error e
       | .ok (nodes, st2) => .ok (node :: nodes, st2))
  | .if_statement condition body else_body :: rest, st =>
    (match analyze_if_statement st condition body else_body with
     | .error e => .error e
     | .ok (node, st1) =>
       match analyze rest st1 with
       | .error e => .error e
       | .ok (nodes, st2) => .ok (node :: nodes, st2))
  | .return_statement expression :: rest, st =>
    (match analyze_return_statement st expression with
     | .error e => .error e
     | .ok (node, st1) =>
       match analyze rest st1 with
       | .error e => .error e
       | .ok (nodes, st2) => .ok (node :: nodes, st2))
  | .assignment _ _ :: rest, st => analyze rest st

/-! ## Derived predicates used by the claims -/

/-- Every expression node of the tree (the node itself and, for a
binary operation, both operands recursively) carries its
`evaluated_type`/`evaluated_value` attributes. -/
def allExprAnnotated : Expr → Bool
  | .number _ a => a.isSome
  | .identifier _ a => a.isSome
  | .binary_operation _ l r a => a.isSome && allExprAnnotated l && allExprAnnotated r

mutual

/-- Every expression node reachable from the statement is annotated. -/
def stmtFullyAnnotated : Stmt → Bool
  | .declaration _ _ e => allExprAnnotated e
  | .assignment _ e => allExprAnnotated e
  | .if_statement c body else_body =>
    allExprAnnotated c && stmtsFullyAnnotated body &&
      (match else_body with
       | some l => stmtsFullyAnnotated l
       | none => true)
  | .return_statement e => allExprAnnotated e

/-- `stmtFullyAnnotated` over a statement list. -/
def stmtsFullyAnnotated : List Stmt → Bool
  | [] => true
  | s :: rest => stmtFullyAnnotated s && stmtsFullyAnnotated rest

end

mutual

/-- The top-level expressions of the statement (a declaration's or
return's expression, an if's condition) are annotated; nested
statements of an if are required to satisfy the same property.
`assignment` nodes never satisfy it (the analyzer drops them, so they
cannot occur in an attributed AST). -/
def stmtTopAnnotated : Stmt → Bool
  | .declaration _ _ e => e.topAnn.isSome
  | .assignment _ _ => false
  | .if_statement c body else_body =>
    c.topAnn.isSome && stmtsTopAnnotated body &&
      (match else_body with
       | some l => stmtsTopAnnotated l
       | none => true)
  | .return_statement e => e.topAnn.isSome

/-- `stmtTopAnnotated` over a statement list. -/
def stmtsTopAnnotated : List Stmt → Bool
  | [] => true
  | s :: rest => stmtTopAnnotated s && stmtsTopAnnotated rest

end

/-! ## The end-to-end example program of the spec (claim C1) -/

/-- The four-statement source program of the spec's end-to-end test,
one statement per line. -/
def C1_source : String :=
  "int a = 5;\nint b = 10;\nint sum = a + b;\nreturn sum;"

/-- The token sequence the lexer produces for `C1_source`. -/
def C1_tokens : List Token :=
  [⟨("KEYWORD"), ("int"), 1⟩, ⟨("IDENTIFIER"), ("a"), 1⟩,
   ⟨("OPERATOR"), ("="), 1⟩, ⟨("NUMBER"), ("5"), 1⟩,
   ⟨("SEMICOLON"), (";"), 1⟩,
   ⟨("KEYWORD"), ("int"), 2⟩, ⟨("IDENTIFIER"), ("b"), 2⟩,
   ⟨("OPERATOR"), ("="), 2⟩, ⟨("NUMBER"), ("10"), 2⟩,
   ⟨("SEMICOLON"), (";"), 2⟩,
   ⟨("KEYWORD"), ("int"), 3⟩, ⟨("IDENTIFIER"), ("sum"), 3⟩,
   ⟨("OPERATOR"), ("="), 3⟩, ⟨("IDENTIFIER"), ("a"), 3⟩,
   ⟨("OPERATOR"), ("+"), 3⟩, ⟨("IDENTIFIER"), ("b"), 3⟩,
   ⟨("SEMICOLON"), (";"), 3⟩,
   ⟨("KEYWORD"), ("return"), 4⟩, ⟨("IDENTIFIER"), ("sum"), 4⟩,
   ⟨("SEMICOLON"), (";"), 4⟩]

/-- The AST the parser produces for `C1_tokens`: every numeric literal
has been passed through `float()`, hence the `pfloat` values. -/
def C1_ast : List Stmt :=
  [.declaration ("int") ("a") (.number (.pfloat 5) none),
   .declaration ("int") ("b") (.number (.pfloat 10) none),
   .declaration ("int") ("sum")
     (.binary_operation ("+") (.identifier ("a") none) (.identifier ("b") none) none),
   .return_statement (.identifier ("sum") none)]

/-- C1, counterexample: the end-to-end program tokenizes into 20
non-whitespace tokens, not 16 as claimed (the claim's count omits the
four semicolons). -/
theorem C1_token_count_not_16 :
    tokenize C1_source = .ok C1_tokens ∧
    C1_tokens.length = 20 ∧ ¬ C1_tokens.length = 16 :=
  ⟨rfl, rfl, by decide⟩

/-- C1, amended: the program tokenizes into 20 non-whitespace tokens
and parses into 4 statement nodes, but `analyze` raises a type error on
the very first declaration — the parser stores every literal as a
Python float, so `5` evaluates with type `float`, which must equal the
declared `int` exactly — and the symbol table is left empty. -/
theorem C1_pipeline :
    tokenize C1_source = .ok C1_tokens ∧
    C1_tokens.length = 20 ∧
    parse_program 21 C1_tokens = .ok C1_ast ∧
    C1_ast.length = 4 ∧
    analyze C1_ast [] = .error (.typeMismatch ("float") ("int") ("a"), []) :=
  ⟨rfl, rfl, rfl, rfl, rfl⟩

/-- C2: the fractionless literal `5`, run through the full pipeline, is
annotated with `evaluated_type = "float"`, because `parse_factor`
converts every NUMBER lexeme with `float()` and `evaluate_expression`
types by `isinstance(value, int)`.  The claim's `int` typing never
occurs for parsed literals. -/
theorem C2_parsed_literal_is_float :
    tokenize ("return 5;") =
      .ok [⟨("KEYWORD"), ("return"), 1⟩, ⟨("NUMBER"), ("5"), 1⟩,
           ⟨("SEMICOLON"), (";"), 1⟩] ∧
    parse_program 10
        [⟨("KEYWORD"), ("return"), 1⟩, ⟨("NUMBER"), ("5"), 1⟩,
         ⟨("SEMICOLON"), (";"), 1⟩] =
      .ok [.return_statement (.number (.pfloat 5) none)] ∧
    analyze [.return_statement (.number (.pfloat 5) none)] [] =
      .ok ([.return_statement
              (.number (.pfloat 5) (some ⟨("float"), .pfloat 5⟩))], []) :=
  ⟨rfl, rfl, rfl⟩

/-- C4: a character matched by no specific pattern is swallowed by the
`UNKNOWN` fallback pattern `.`: `tokenize` emits an `UNKNOWN` token for
it and keeps scanning instead of raising the (unreachable) lexical
error. -/
theorem C4_unknown_character_tokenized :
    tokenize ("@") = .ok [⟨("UNKNOWN"), ("@"), 1⟩] ∧
    tokenize ("@;") = .ok [⟨("UNKNOWN"), ("@"), 1⟩, ⟨("SEMICOLON"), (";"), 1⟩] :=
  ⟨rfl, rfl⟩

/-- C5: an `if_statement` whose body is a non-empty sequence of valid
statements makes `analyze` crash with a `TypeError` — the recursion
`self.analyze(body[i])` hands a single statement dict to a routine that
iterates it (yielding its keys) — even though the same nested statement
analyzes successfully at top level. -/
theorem C5_if_body_crashes :
    analyze
      [.if_statement
         (.binary_operation ("<") (.number (.pint 1) none)
            (.number (.pint 2) none) none)
         [.return_statement (.number (.pint 3) none)] none] [] =
      .error (.stringIndicesTypeError, []) ∧
    analyze [.return_statement (.number (.pint 3) none)] [] =
      .ok ([.return_statement (.number (.pint 3) (some ⟨("int"), .pint 3⟩))], []) ∧
    analyze
      [.if_statement
         (.binary_operation ("<") (.number (.pint 1) none)
            (.number (.pint 2) none) none)
         [] none] [] =
      .ok ([.if_statement
              (.binary_operation ("<") (.number (.pint 1) none)
                 (.number (.pint 2) none) (some ⟨("bool"), .pbool true⟩))
              [] none], []) :=
  ⟨rfl, rfl, rfl⟩

/-- C7, counterexample: a newline preceded by a space is consumed as
part of the `\s+` whitespace match, which bypasses the newline branch
of the scan loop — the line counter is not incremented, and the token
for `b` reports line 1 despite the literal newline before it. -/
theorem C7_newline_in_whitespace_run :
    tokenize ("a \nb") =
      .ok [⟨("IDENTIFIER"), ("a"), 1⟩, ⟨("IDENTIFIER"), ("b"), 1⟩] := rfl

/-- C7, amended: a newline standing at the cursor when a scan round
begins increments the line counter (so in the spec's example the token
for `y` reports line 2), and spaces and tabs are consumed without
emitting tokens and without touching the counter; but a newline inside
a whitespace run that begins with a space or tab is consumed by the
`\s+` pattern without incrementing the counter. -/
theorem C7_line_counting :
    tokenize ("int x = 1;\nint y = 2;") =
      .ok [⟨("KEYWORD"), ("int"), 1⟩, ⟨("IDENTIFIER"), ("x"), 1⟩,
           ⟨("OPERATOR"), ("="), 1⟩, ⟨("NUMBER"), ("1"), 1⟩,
           ⟨("SEMICOLON"), (";"), 1⟩,
           ⟨("KEYWORD"), ("int"), 2⟩, ⟨("IDENTIFIER"), ("y"), 2⟩,
           ⟨("OPERATOR"), ("="), 2⟩, ⟨("NUMBER"), ("2"), 2⟩,
           ⟨("SEMICOLON"), (";"), 2⟩] ∧
    tokenize ("a \t b") =
      .ok [⟨("IDENTIFIER"), ("a"), 1⟩, ⟨("IDENTIFIER"), ("b"), 1⟩] ∧
    tokenize ("a\nb") =
      .ok [⟨("IDENTIFIER"), ("a"), 1⟩, ⟨("IDENTIFIER"), ("b"), 2⟩] ∧
    tokenize ("a \nb") =
      .ok [⟨("IDENTIFIER"), ("a"), 1⟩, ⟨("IDENTIFIER"), ("b"), 1⟩] :=
  ⟨rfl, rfl, rfl, rfl⟩

/-- C10: `analyze` has no branch for `assignment` nodes, so analyzing
an assignment-headed list is literally analyzing its tail — the symbol
table is untouched, the expression is never evaluated (an undeclared
variable inside it goes unnoticed), and the node is absent from the
attributed AST.  The parser does produce such nodes for `x = expr;`. -/
theorem C10_assignment_skipped :
    (∀ (var_name : String) (expression : Expr) (rest : List Stmt) (st : SymTable),
        analyze (.assignment var_name expression :: rest) st = analyze rest st) ∧
    tokenize ("x = 1;") =
      .ok [⟨("IDENTIFIER"), ("x"), 1⟩, ⟨("OPERATOR"), ("="), 1⟩,
           ⟨("NUMBER"), ("1"), 1⟩, ⟨("SEMICOLON"), (";"), 1⟩] ∧
    parse_program 10
        [⟨("IDENTIFIER"), ("x"), 1⟩, ⟨("OPERATOR"), ("="), 1⟩,
         ⟨("NUMBER"), ("1"), 1⟩, ⟨("SEMICOLON"), (";"), 1⟩] =
      .ok [.assignment ("x") (.number (.pfloat 1) none)] ∧
    analyze [.assignment ("x") (.identifier ("undeclared") none)] [] = .ok ([], []) :=
  ⟨fun _ _ _ _ => rfl, rfl, rfl, rfl⟩

/-- C6, counterexample: with the token sequence exhausted while a
SEMICOLON is still expected, `parse` does not fail with the formatted
mismatch error — building that message subscripts `current_token`,
which is `None`, so the run dies with an unformatted `TypeError`
carrying neither line nor expected kind nor actual token. -/
theorem C6_exhausted_tokens_crash :
    parse_program 10 [⟨("KEYWORD"), ("return"), 1⟩, ⟨("NUMBER"), ("1"), 1⟩] =
      .error .noneSubscript := rfl

/-- C6, amended: when a current token is present and its kind differs
from the expected one, `consume` raises the mismatch error carrying the
line, the expected kind and the actual token, and on a match it returns
the consumed token; but when the tokens are exhausted, `consume` fails
with the `None`-subscript `TypeError` instead. -/
theorem C6_consume_contract :
    (∀ (expected : String) (t : Token) (rest : List Token),
        (t.ttype = expected → consume expected (t :: rest) = .ok (t, rest)) ∧
        (t.ttype ≠ expected →
          consume expected (t :: rest) = .error (.mismatch t.line expected t))) ∧
    (∀ expected : String, consume expected [] = .error .noneSubscript) := by
  refine ⟨fun expected t rest => ⟨fun h => ?_, fun h => ?_⟩, fun expected => rfl⟩
  · simp [consume, h]
  · simp [consume, h]

/-- C6, witness for the amended statement: a concrete mismatch. -/
theorem C6_consume_contract_witness :
    consume ("SEMICOLON") [⟨("PAREN"), (")"), 3⟩] =
      .error (.mismatch 3 ("SEMICOLON") ⟨("PAREN"), (")"), 3⟩) :=
  (C6_consume_contract.1 ("SEMICOLON") ⟨("PAREN"), (")"), 3⟩ []).2 (by decide)

/-! ## Annotation facts for claim C3 -/

/-- Writing the evaluated fields makes the outermost node annotated. -/
theorem setTopAnn_topAnn (e : Expr) (a : Ann) : (e.setTopAnn a).topAnn = some a := by
  cases e <;> rfl

/-- A declaration accepted by the analyzer has its expression's
outermost node annotated. -/
theorem analyze_declaration_ok_topAnn {st : SymTable} {var_type var_name : String}
    {e : Expr} {node : Stmt} {st1 : SymTable}
    (h : analyze_declaration st var_type var_name e = .ok (node, st1)) :
    stmtTopAnnotated node = true := by
  unfold analyze_declaration at h
  cases hev : evaluate_expression st e with
  | error err => rw [hev] at h; cases h
  | ok p =>
    obtain ⟨v, t⟩ := p
    rw [hev] at h
    by_cases ht : t ≠ var_type
    · simp only [if_pos ht] at h; cases h
    · simp only [if_neg ht] at h
      cases h
      simp [stmtTopAnnotated, setTopAnn_topAnn]

/-- A return statement accepted by the analyzer has its expression's
outermost node annotated. -/
theorem analyze_return_ok_topAnn {st : SymTable} {e : Expr} {node : Stmt}
    {st1 : SymTable}
    (h : analyze_return_statement st e = .ok (node, st1)) :
    stmtTopAnnotated node = true := by
  unfold analyze_return_statement at h
  cases hev : evaluate_expression st e with
  | error err => rw [hev] at h; cases h
  | ok p =>
    obtain ⟨v, t⟩ := p
    rw [hev] at h
    cases h
    simp [stmtTopAnnotated, setTopAnn_topAnn]

/-- An if statement accepted by the analyzer has an annotated condition
and empty nested sequences (a non-empty body or else-body crashes the
analyzer). -/
theorem analyze_if_ok_topAnn {st : SymTable} {c : Expr} {b : List Stmt}
    {eb : Option (List Stmt)} {node : Stmt} {st1 : SymTable}
    (h : analyze_if_statement st c b eb = .ok (node, st1)) :
    stmtTopAnnotated node = true := by
  unfold analyze_if_statement at h
  cases c with
  | number v a => cases h
  | identifier n a => cases h
  | binary_operation operator l r a =>
    repeat' split at h
    all_goals cases h
    all_goals
      (rename_i hx
       cases eb with
       | none => rfl
       | some lst =>
         cases lst with
         | nil => rfl
         | cons s ss => exact absurd rfl (hx s ss))

/-- C3, amended: whenever `analyze` returns, every statement of the
attributed AST has its top-level expressions annotated — the
declaration or return expression and the if condition (successful if
statements necessarily carry empty nested sequences).  Nested operands
of binary operations are not annotated (see the counterexample). -/
theorem C3_top_level_annotated :
    ∀ (ast : List Stmt) (st : SymTable) (out : List Stmt) (st' : SymTable),
      analyze ast st = .ok (out, st') → stmtsTopAnnotated out = true := by
  intro ast
  induction ast with
  | nil =>
    intro st out st' h
    cases h
    rfl
  | cons s rest ih =>
    intro st out st' h
    cases s with
    | declaration var_type var_name e =>
      unfold analyze at h
      split at h
      · cases h
      next node st1 hd =>
        split at h
        · cases h
        next nodes st2 hrest =>
          cases h
          simp [stmtsTopAnnotated, analyze_declaration_ok_topAnn hd,
                ih _ _ _ hrest]
    | assignment var_name e =>
      unfold analyze at h
      exact ih st out st' h
    | if_statement c b eb =>
      unfold analyze at h
      split at h
      · cases h
      next node st1 hd =>
        split at h
        · cases h
        next nodes st2 hrest =>
          cases h
          simp [stmtsTopAnnotated, analyze_if_ok_topAnn hd,
                ih _ _ _ hrest]
    | return_statement e =>
      unfold analyze at h
      split at h
      · cases h
      next node st1 hd =>
        split at h
        · cases h
        next nodes st2 hrest =>
          cases h
          simp [stmtsTopAnnotated, analyze_return_ok_topAnn hd,
                ih _ _ _ hrest]

/-- C3, counterexample: `analyze` succeeds on a return of `1 + 2`, yet
the returned statement is not fully annotated — the analyzer writes the
evaluated fields only on the outermost expression node; the nested
operands keep `evaluated_type = evaluated_value = None`. -/
theorem C3_nested_operands_unannotated :
    analyze
      [.return_statement
         (.binary_operation ("+") (.number (.pint 1) none)
            (.number (.pint 2) none) none)] [] =
      .ok ([.return_statement
              (.binary_operation ("+") (.number (.pint 1) none)
                 (.number (.pint 2) none) (some ⟨("int"), .pint 3⟩))], []) ∧
    stmtFullyAnnotated
      (.return_statement
         (.binary_operation ("+") (.number (.pint 1) none)
            (.number (.pint 2) none) (some ⟨("int"), .pint 3⟩))) = false :=
  ⟨rfl, rfl⟩

/-- C3, witness for the amended statement, at the concrete input of the
counterexample. -/
theorem C3_top_level_annotated_witness :
    stmtsTopAnnotated
      [.return_statement
         (.binary_operation ("+") (.number (.pint 1) none)
            (.number (.pint 2) none) (some ⟨("int"), .pint 3⟩))] = true :=
  C3_top_level_annotated
    [.return_statement
       (.binary_operation ("+") (.number (.pint 1) none)
          (.number (.pint 2) none) none)] []
    [.return_statement
       (.binary_operation ("+") (.number (.pint 1) none)
          (.number (.pint 2) none) (some ⟨("int"), .pint 3⟩))] [] rfl

/-! ## Sequencing facts for claim C9 -/

/-- `analyze` over a concatenation runs the first list, then the second
from the resulting table; an error in either part propagates with the
table as committed at the raise. -/
theorem analyze_append :
    ∀ (as bs : List Stmt) (st : SymTable),
      analyze (as ++ bs) st =
        match analyze as st with
        | .error e => .error e
        | .ok (xs, st1) =>
          match analyze bs st1 with
          | .error e => .error e
          | .ok (ys, st2) => .ok (xs ++ ys, st2) := by
  intro as
  induction as with
  | nil =>
    intro bs st
    simp only [List.nil_append, analyze]
    cases h : analyze bs st with
    | error e => rfl
    | ok p => obtain ⟨ys, st2⟩ := p; rfl
  | cons s rest ih =>
    intro bs st
    cases s with
    | declaration var_type var_name e =>
      simp only [List.cons_append, analyze]
      cases hd : analyze_declaration st var_type var_name e with
      | error err => rfl
      | ok p =>
        obtain ⟨node, st1⟩ := p
        dsimp only
        rw [show rest.append bs = rest ++ bs from rfl, ih bs st1]
        cases hrest : analyze rest st1 with
        | error err => dsimp only
        | ok q =>
          obtain ⟨nodes, st2⟩ := q
          dsimp only
          cases hbs : analyze bs st2 with
          | error err => dsimp only
          | ok r => obtain ⟨ys, st3⟩ := r; simp
    | assignment var_name e =>
      simp only [List.cons_append, analyze]
      exact ih bs st
    | if_statement c b eb =>
      simp only [List.cons_append, analyze]
      cases hd : analyze_if_statement st c b eb with
      | error err => rfl
      | ok p =>
        obtain ⟨node, st1⟩ := p
        dsimp only
        rw [show rest.append bs = rest ++ bs from rfl, ih bs st1]
        cases hrest : analyze rest st1 with
        | error err => dsimp only
        | ok q =>
          obtain ⟨nodes, st2⟩ := q
          dsimp only
          cases hbs : analyze bs st2 with
          | error err => dsimp only
          | ok r => obtain ⟨ys, st3⟩ := r; simp
    | return_statement e =>
      simp only [List.cons_append, analyze]
      cases hd : analyze_return_statement st e with
      | error err => rfl
      | ok p =>
        obtain ⟨node, st1⟩ := p
        dsimp only
        rw [show rest.append bs = rest ++ bs from rfl, ih bs st1]
        cases hrest : analyze rest st1 with
        | error err => dsimp only
        | ok q =>
          obtain ⟨nodes, st2⟩ := q
          dsimp only
          cases hbs : analyze bs st2 with
          | error err => dsimp only
          | ok r => obtain ⟨ys, st3⟩ := r; simp

/-- C9: a declaration's expression type must equal the declared type
exactly.  On a mismatch the declaration raises the type error with the
symbol table exactly as it stood — the failing variable is not stored —
and a program whose prefix analyzed to that table fails the same way,
keeping precisely the commits of the prefix.  On a match the table gains
the declared binding and the expression is annotated. -/
theorem C9_declaration_type_strict :
    ∀ (st : SymTable) (var_type var_name : String) (e : Expr) (v : PyVal) (t : String),
      evaluate_expression st e = .ok (v, t) →
      (t ≠ var_type →
        analyze_declaration st var_type var_name e =
          .error (.typeMismatch t var_type var_name, st) ∧
        ∀ (st0 : SymTable) (pre out rest : List Stmt),
          analyze pre st0 = .ok (out, st) →
          analyze (pre ++ .declaration var_type var_name e :: rest) st0 =
            .error (.typeMismatch t var_type var_name, st)) ∧
      (t = var_type →
        analyze_declaration st var_type var_name e =
          .ok (.declaration var_type var_name (e.setTopAnn ⟨t, v⟩),
               insertVar st var_name ⟨var_type, v⟩)) := by
  intro st var_type var_name e v t hev
  constructor
  · intro hne
    have hdecl : analyze_declaration st var_type var_name e =
        .error (.typeMismatch t var_type var_name, st) := by
      unfold analyze_declaration
      rw [hev]
      simp [hne]
    refine ⟨hdecl, fun st0 pre out rest hpre => ?_⟩
    rw [analyze_append, hpre]
    dsimp only
    unfold analyze
    rw [hdecl]
  · intro heq
    unfold analyze_declaration
    rw [hev]
    simp [heq]

/-- C9, witness: declaring `float x = 2` where `2` is an `int`-typed
expression fails with the type mismatch, leaving the table exactly as
the preceding declaration committed it. -/
theorem C9_declaration_type_strict_witness :
    analyze_declaration [(("b"), ⟨("int"), .pint 1⟩)] ("float") ("x")
        (.number (.pint 2) none) =
      .error (.typeMismatch ("int") ("float") ("x"),
              [(("b"), ⟨("int"), .pint 1⟩)]) ∧
    analyze
        ([.declaration ("int") ("b") (.number (.pint 1) none)] ++
          [.declaration ("float") ("x") (.number (.pint 2) none)]) [] =
      .error (.typeMismatch ("int") ("float") ("x"),
              [(("b"), ⟨("int"), .pint 1⟩)]) := by
  have h := (C9_declaration_type_strict [(("b"), ⟨("int"), .pint 1⟩)]
    ("float") ("x") (.number (.pint 2) none) (.pint 2) ("int") rfl).1
    (by decide)
  exact ⟨h.1,
    h.2 [] [.declaration ("int") ("b") (.number (.pint 1) none)]
      [.declaration ("int") ("b")
         ((Expr.number (.pint 1) none).setTopAnn ⟨("int"), .pint 1⟩)]
      [] rfl⟩

/-! ## Operator-chain token sequences for claim C8 -/

/-- A NUMBER token (line numbers are irrelevant to tree shape). -/
def numTok (s : String) : Token := ⟨("NUMBER"), s, 1⟩

/-- An OPERATOR token. -/
def opTok (op : String) : Token := ⟨("OPERATOR"), op, 1⟩

/-- The factor the parser builds from a NUMBER token. -/
def numExpr (s : String) : Expr := .number (.pfloat (lexFloat s)) none

/-- The token tail of an operator chain: `op n op n ...`, with numeral
lexemes (the only NUMBER lexemes the lexer produces). -/
def chainPairsToks (ps : List (String × Nat)) : List Token :=
  ps.foldr (fun p acc => opTok p.1 :: numTok (Nat.repr p.2) :: acc) []

/-- The token sequence of the chain `n0 op n1 op n2 ...`. -/
def chainToks (n0 : Nat) (ps : List (String × Nat)) : List Token :=
  numTok (Nat.repr n0) :: chainPairsToks ps

/-- The fully left-nested tree `((n0 op n1) op n2) ...` — the iterative
left fold the parser loops implement. -/
def leftNested (n0 : Nat) (ps : List (String × Nat)) : Expr :=
  ps.foldl
    (fun acc p => .binary_operation p.1 acc (numExpr (Nat.repr p.2)) none)
    (numExpr (Nat.repr n0))

/-- Does the head token continue a `term` (a `*`/`/` operator)?  This
is the loop condition of `parse_term`. -/
def isMulHead : List Token → Bool
  | t :: _ => t.ttype = ("OPERATOR") && (t.lexeme = ("*") || t.lexeme = ("/"))
  | [] => false

/-- Does the head token continue an arithmetic expression (`+`/`-`)? -/
def isAddHead : List Token → Bool
  | t :: _ => t.ttype = ("OPERATOR") && (t.lexeme = ("+") || t.lexeme = ("-"))
  | [] => false

/-- Reduction of `Except` bind on a success value. -/
theorem except_bind_ok {epsilon alpha beta : Type} (a : alpha)
    (f : alpha → Except epsilon beta) :
    ((Except.ok a : Except epsilon alpha) >>= f) = f a := rfl

/-- A factor built from a NUMBER token succeeds at any positive fuel. -/
theorem parse_factor_num (f : Nat) (s : String) (rest : List Token) :
    parse_factor (f + 1) (numTok s :: rest) = .ok (numExpr s, rest) := rfl

/-- The `parse_term` loop exits when the next token is not `*`/`/`. -/
theorem term_loop_exit (f : Nat) (left : Expr) (ts : List Token)
    (h : isMulHead ts = false) :
    term_loop (f + 1) left ts = .ok (left, ts) := by
  cases ts with
  | nil => rfl
  | cons t rest =>
    simp only [isMulHead] at h
    simp [term_loop, h]

/-- The `parse_arithmetic_expression` loop exits when the next token is
not `+`/`-`. -/
theorem arithmetic_loop_exit (f : Nat) (left : Expr) (ts : List Token)
    (h : isAddHead ts = false) :
    arithmetic_loop (f + 1) left ts = .ok (left, ts) := by
  cases ts with
  | nil => rfl
  | cons t rest =>
    simp only [isAddHead] at h
    simp [arithmetic_loop, h]

/-- A term consisting of a single NUMBER token. -/
theorem parse_term_num (f : Nat) (s : String) (rest : List Token)
    (h : isMulHead rest = false) :
    parse_term (f + 2) (numTok s :: rest) = .ok (numExpr s, rest) := by
  show (do
    let (left, ts1) ← parse_factor (f + 1) (numTok s :: rest)
    term_loop (f + 1) left ts1) = .ok (numExpr s, rest)
  rw [parse_factor_num, except_bind_ok]
  exact term_loop_exit f (numExpr s) rest h

/-- An arithmetic expression consisting of a single NUMBER token. -/
theorem parse_arithmetic_num (f : Nat) (s : String) (rest : List Token)
    (hm : isMulHead rest = false) (ha : isAddHead rest = false) :
    parse_arithmetic_expression (f + 3) (numTok s :: rest) = .ok (numExpr s, rest) := by
  show (do
    let (left, ts1) ← parse_term (f + 2) (numTok s :: rest)
    arithmetic_loop (f + 2) left ts1) = .ok (numExpr s, rest)
  rw [parse_term_num f s rest hm, except_bind_ok]
  exact arithmetic_loop_exit (f + 1) (numExpr s) rest ha

/-- Additive chain tails never start with a `*`/`/` token. -/
theorem chainPairs_not_mul (ps : List (String × Nat))
    (h : ∀ p ∈ ps, p.1 = ("+") ∨ p.1 = ("-")) :
    isMulHead (chainPairsToks ps) = false := by
  cases ps with
  | nil => rfl
  | cons p rest =>
    obtain ⟨op, n⟩ := p
    rcases h (op, n) (List.mem_cons_self _ _) with h1 | h1 <;>
      (simp only at h1; subst h1; rfl)

/-- One iteration of the `parse_arithmetic_expression` loop on an
additive operator token. -/
theorem arithmetic_loop_step (g : Nat) (left : Expr) (op : String)
    (t2 : Token) (rest : List Token) (hop : op = ("+") ∨ op = ("-")) :
    arithmetic_loop (g + 1) left (opTok op :: t2 :: rest) = (do
      let (right, ts2) ← parse_term g (t2 :: rest)
      arithmetic_loop g (.binary_operation op left right none) ts2) := by
  rcases hop with rfl | rfl <;> rfl

/-- The `parse_arithmetic_expression` loop folds an additive chain into
the left-nested tree, consuming the whole tail. -/
theorem arithmetic_loop_chain :
    ∀ (ps : List (String × Nat)) (left : Expr) (f : Nat),
      2 * ps.length + 1 ≤ f →
      (∀ p ∈ ps, p.1 = ("+") ∨ p.1 = ("-")) →
      arithmetic_loop f left (chainPairsToks ps) =
        .ok (ps.foldl
               (fun acc p => .binary_operation p.1 acc (numExpr (Nat.repr p.2)) none)
               left, []) := by
  intro ps
  induction ps with
  | nil =>
    intro left f hf _
    obtain ⟨g, rfl⟩ : ∃ g, f = g + 1 := ⟨f - 1, by omega⟩
    rfl
  | cons p rest ih =>
    intro left f hf hops
    obtain ⟨op, n⟩ := p
    have hop := hops (op, n) (List.mem_cons_self _ _)
    have hrest : ∀ q ∈ rest, q.1 = ("+") ∨ q.1 = ("-") :=
      fun q hq => hops q (List.mem_cons_of_mem _ hq)
    have hlc : ((op, n) :: rest).length = rest.length + 1 := rfl
    obtain ⟨g, rfl⟩ : ∃ g, f = g + 3 := ⟨f - 3, by omega⟩
    show arithmetic_loop (g + 2 + 1) left
        (opTok op :: numTok (Nat.repr n) :: chainPairsToks rest) = _
    rw [arithmetic_loop_step (g + 2) left op _ _ hop,
        parse_term_num g (Nat.repr n) (chainPairsToks rest)
          (chainPairs_not_mul rest hrest),
        except_bind_ok]
    dsimp only
    rw [ih (.binary_operation op left (numExpr (Nat.repr n)) none) (g + 2)
          (by omega) hrest]
    rfl

/-- An additive chain parses to the left-nested tree. -/
theorem parse_arithmetic_chain (n0 : Nat) (ps : List (String × Nat)) (f : Nat)
    (hf : 2 * ps.length + 4 ≤ f)
    (hops : ∀ p ∈ ps, p.1 = ("+") ∨ p.1 = ("-")) :
    parse_arithmetic_expression f (chainToks n0 ps) = .ok (leftNested n0 ps, []) := by
  obtain ⟨g, rfl⟩ : ∃ g, f = g + 3 := ⟨f - 3, by omega⟩
  show (do
    let (left, ts1) ← parse_term (g + 2) (numTok (Nat.repr n0) :: chainPairsToks ps)
    arithmetic_loop (g + 2) left ts1) = _
  rw [parse_term_num g (Nat.repr n0) (chainPairsToks ps)
        (chainPairs_not_mul ps hops),
      except_bind_ok]
  dsimp only
  rw [arithmetic_loop_chain ps (numExpr (Nat.repr n0)) (g + 2) (by omega) hops]
  rfl

/-- One iteration of the `parse_term` loop on a `*`/`/` token. -/
theorem term_loop_step (g : Nat) (left : Expr) (op : String)
    (t2 : Token) (rest : List Token) (hop : op = ("*") ∨ op = ("/")) :
    term_loop (g + 1) left (opTok op :: t2 :: rest) = (do
      let (right, ts2) ← parse_factor g (t2 :: rest)
      term_loop g (.binary_operation op left right none) ts2) := by
  rcases hop with rfl | rfl <;> rfl

/-- The `parse_term` loop folds a multiplicative chain into the
left-nested tree. -/
theorem term_loop_chain :
    ∀ (ps : List (String × Nat)) (left : Expr) (f : Nat),
      2 * ps.length + 1 ≤ f →
      (∀ p ∈ ps, p.1 = ("*") ∨ p.1 = ("/")) →
      term_loop f left (chainPairsToks ps) =
        .ok (ps.foldl
               (fun acc p => .binary_operation p.1 acc (numExpr (Nat.repr p.2)) none)
               left, []) := by
  intro ps
  induction ps with
  | nil =>
    intro left f hf _
    obtain ⟨g, rfl⟩ : ∃ g, f = g + 1 := ⟨f - 1, by omega⟩
    rfl
  | cons p rest ih =>
    intro left f hf hops
    obtain ⟨op, n⟩ := p
    have hop := hops (op, n) (List.mem_cons_self _ _)
    have hrest : ∀ q ∈ rest, q.1 = ("*") ∨ q.1 = ("/") :=
      fun q hq => hops q (List.mem_cons_of_mem _ hq)
    have hlc : ((op, n) :: rest).length = rest.length + 1 := rfl
    obtain ⟨g, rfl⟩ : ∃ g, f = g + 3 := ⟨f - 3, by omega⟩
    show term_loop (g + 2 + 1) left
        (opTok op :: numTok (Nat.repr n) :: chainPairsToks rest) = _
    rw [term_loop_step (g + 2) left op _ _ hop,
        parse_factor_num (g + 1) (Nat.repr n) (chainPairsToks rest),
        except_bind_ok]
    dsimp only
    rw [ih (.binary_operation op left (numExpr (Nat.repr n)) none) (g + 2)
          (by omega) hrest]
    rfl

/-- A multiplicative chain parses to the left-nested tree. -/
theorem parse_term_chain (n0 : Nat) (ps : List (String × Nat)) (f : Nat)
    (hf : 2 * ps.length + 3 ≤ f)
    (hops : ∀ p ∈ ps, p.1 = ("*") ∨ p.1 = ("/")) :
    parse_term f (chainToks n0 ps) = .ok (leftNested n0 ps, []) := by
  obtain ⟨g, rfl⟩ : ∃ g, f = g + 2 := ⟨f - 2, by omega⟩
  show (do
    let (left, ts1) ← parse_factor (g + 1) (numTok (Nat.repr n0) :: chainPairsToks ps)
    term_loop (g + 1) left ts1) = _
  rw [parse_factor_num g (Nat.repr n0) (chainPairsToks ps),
      except_bind_ok]
  dsimp only
  rw [term_loop_chain ps (numExpr (Nat.repr n0)) (g + 1) (by omega) hops]
  rfl

/-- The comparison operators of the `parse_expression` loop. -/
def isCmpOp (op : String) : Prop :=
  op = ("<") ∨ op = (">") ∨ op = ("<=") ∨ op = (">=") ∨ op = ("==") ∨ op = ("!=")

/-- Comparison chain tails never start with a `*`/`/` token. -/
theorem chainPairs_cmp_not_mul (ps : List (String × Nat))
    (h : ∀ p ∈ ps, isCmpOp p.1) :
    isMulHead (chainPairsToks ps) = false := by
  cases ps with
  | nil => rfl
  | cons p rest =>
    obtain ⟨op, n⟩ := p
    rcases h (op, n) (List.mem_cons_self _ _) with h1 | h1 | h1 | h1 | h1 | h1 <;>
      (simp only at h1; subst h1; rfl)

/-- Comparison chain tails never start with a `+`/`-` token. -/
theorem chainPairs_cmp_not_add (ps : List (String × Nat))
    (h : ∀ p ∈ ps, isCmpOp p.1) :
    isAddHead (chainPairsToks ps) = false := by
  cases ps with
  | nil => rfl
  | cons p rest =>
    obtain ⟨op, n⟩ := p
    rcases h (op, n) (List.mem_cons_self _ _) with h1 | h1 | h1 | h1 | h1 | h1 <;>
      (simp only at h1; subst h1; rfl)

/-- One iteration of the `parse_expression` loop on a comparison
operator token. -/
theorem expression_loop_step (g : Nat) (left : Expr) (op : String)
    (t2 : Token) (rest : List Token) (hop : isCmpOp op) :
    expression_loop (g + 1) left (opTok op :: t2 :: rest) = (do
      let (right, ts2) ← parse_arithmetic_expression g (t2 :: rest)
      expression_loop g (.binary_operation op left right none) ts2) := by
  rcases hop with rfl | rfl | rfl | rfl | rfl | rfl <;> rfl

/-- The `parse_expression` loop folds a comparison chain into the
left-nested tree. -/
theorem expression_loop_chain :
    ∀ (ps : List (String × Nat)) (left : Expr) (f : Nat),
      3 * ps.length + 1 ≤ f →
      (∀ p ∈ ps, isCmpOp p.1) →
      expression_loop f left (chainPairsToks ps) =
        .ok (ps.foldl
               (fun acc p => .binary_operation p.1 acc (numExpr (Nat.repr p.2)) none)
               left, []) := by
  intro ps
  induction ps with
  | nil =>
    intro left f hf _
    obtain ⟨g, rfl⟩ : ∃ g, f = g + 1 := ⟨f - 1, by omega⟩
    rfl
  | cons p rest ih =>
    intro left f hf hops
    obtain ⟨op, n⟩ := p
    have hop := hops (op, n) (List.mem_cons_self _ _)
    have hrest : ∀ q ∈ rest, isCmpOp q.1 :=
      fun q hq => hops q (List.mem_cons_of_mem _ hq)
    have hlc : ((op, n) :: rest).length = rest.length + 1 := rfl
    obtain ⟨g, rfl⟩ : ∃ g, f = g + 4 := ⟨f - 4, by omega⟩
    show expression_loop (g + 3 + 1) left
        (opTok op :: numTok (Nat.repr n) :: chainPairsToks rest) = _
    rw [expression_loop_step (g + 3) left op _ _ hop,
        parse_arithmetic_num g (Nat.repr n) (chainPairsToks rest)
          (chainPairs_cmp_not_mul rest hrest)
          (chainPairs_cmp_not_add rest hrest),
        except_bind_ok]
    dsimp only
    rw [ih (.binary_operation op left (numExpr (Nat.repr n)) none) (g + 3)
          (by omega) hrest]
    rfl

/-- A comparison chain parses to the left-nested tree. -/
theorem parse_expression_chain (n0 : Nat) (ps : List (String × Nat)) (f : Nat)
    (hf : 3 * ps.length + 5 ≤ f)
    (hops : ∀ p ∈ ps, isCmpOp p.1) :
    parse_expression f (chainToks n0 ps) = .ok (leftNested n0 ps, []) := by
  obtain ⟨g, rfl⟩ : ∃ g, f = g + 4 := ⟨f - 4, by omega⟩
  show (do
    let (left, ts1) ← parse_arithmetic_expression (g + 3)
        (numTok (Nat.repr n0) :: chainPairsToks ps)
    expression_loop (g + 3) left ts1) = _
  rw [parse_arithmetic_num g (Nat.repr n0) (chainPairsToks ps)
        (chainPairs_cmp_not_mul ps hops)
        (chainPairs_cmp_not_add ps hops),
      except_bind_ok]
  dsimp only
  rw [expression_loop_chain ps (numExpr (Nat.repr n0)) (g + 3) (by omega) hops]
  rfl

/-- The left-nested tree of `1 - 2 - 3` (equally of `(1 - 2) - 3`). -/
def C8_leftTree : Expr :=
  .binary_operation ("-")
    (.binary_operation ("-") (.number (.pfloat 1) none) (.number (.pfloat 2) none) none)
    (.number (.pfloat 3) none) none

/-- The right-nested tree of `1 - (2 - 3)`. -/
def C8_rightTree : Expr :=
  .binary_operation ("-") (.number (.pfloat 1) none)
    (.binary_operation ("-") (.number (.pfloat 2) none) (.number (.pfloat 3) none) none)
    none

/-- C8: chains of same-precedence operators group left-to-right at all
three grammar levels (the loops are iterative left folds), and
concretely the token sequence of `1 - 2 - 3` parses to the same tree as
that of `(1 - 2) - 3` and never to the right-nested tree of
`1 - (2 - 3)`. -/
theorem C8_left_associative :
    (∀ (n0 : Nat) (ps : List (String × Nat)) (f : Nat),
        2 * ps.length + 4 ≤ f →
        (∀ p ∈ ps, p.1 = ("+") ∨ p.1 = ("-")) →
        parse_arithmetic_expression f (chainToks n0 ps) =
          .ok (leftNested n0 ps, [])) ∧
    (∀ (n0 : Nat) (ps : List (String × Nat)) (f : Nat),
        2 * ps.length + 3 ≤ f →
        (∀ p ∈ ps, p.1 = ("*") ∨ p.1 = ("/")) →
        parse_term f (chainToks n0 ps) = .ok (leftNested n0 ps, [])) ∧
    (∀ (n0 : Nat) (ps : List (String × Nat)) (f : Nat),
        3 * ps.length + 5 ≤ f →
        (∀ p ∈ ps, isCmpOp p.1) →
        parse_expression f (chainToks n0 ps) = .ok (leftNested n0 ps, [])) ∧
    tokenize ("1 - 2 - 3") =
      .ok [⟨("NUMBER"), ("1"), 1⟩, ⟨("OPERATOR"), ("-"), 1⟩,
           ⟨("NUMBER"), ("2"), 1⟩, ⟨("OPERATOR"), ("-"), 1⟩,
           ⟨("NUMBER"), ("3"), 1⟩] ∧
    parse_expression 30
        [⟨("NUMBER"), ("1"), 1⟩, ⟨("OPERATOR"), ("-"), 1⟩,
         ⟨("NUMBER"), ("2"), 1⟩, ⟨("OPERATOR"), ("-"), 1⟩,
         ⟨("NUMBER"), ("3"), 1⟩] =
      .ok (C8_leftTree, []) ∧
    tokenize ("(1 - 2) - 3") =
      .ok [⟨("PAREN"), ("("), 1⟩, ⟨("NUMBER"), ("1"), 1⟩,
           ⟨("OPERATOR"), ("-"), 1⟩, ⟨("NUMBER"), ("2"), 1⟩,
           ⟨("PAREN"), (")"), 1⟩, ⟨("OPERATOR"), ("-"), 1⟩,
           ⟨("NUMBER"), ("3"), 1⟩] ∧
    parse_expression 30
        [⟨("PAREN"), ("("), 1⟩, ⟨("NUMBER"), ("1"), 1⟩,
         ⟨("OPERATOR"), ("-"), 1⟩, ⟨("NUMBER"), ("2"), 1⟩,
         ⟨("PAREN"), (")"), 1⟩, ⟨("OPERATOR"), ("-"), 1⟩,
         ⟨("NUMBER"), ("3"), 1⟩] =
      .ok (C8_leftTree, []) ∧
    tokenize ("1 - (2 - 3)") =
      .ok [⟨("NUMBER"), ("1"), 1⟩, ⟨("OPERATOR"), ("-"), 1⟩,
           ⟨("PAREN"), ("("), 1⟩, ⟨("NUMBER"), ("2"), 1⟩,
           ⟨("OPERATOR"), ("-"), 1⟩, ⟨("NUMBER"), ("3"), 1⟩,
           ⟨("PAREN"), (")"), 1⟩] ∧
    parse_expression 30
        [⟨("NUMBER"), ("1"), 1⟩, ⟨("OPERATOR"), ("-"), 1⟩,
         ⟨("PAREN"), ("("), 1⟩, ⟨("NUMBER"), ("2"), 1⟩,
         ⟨("OPERATOR"), ("-"), 1⟩, ⟨("NUMBER"), ("3"), 1⟩,
         ⟨("PAREN"), (")"), 1⟩] =
      .ok (C8_rightTree, []) ∧
    C8_leftTree ≠ C8_rightTree :=
  ⟨parse_arithmetic_chain, parse_term_chain, parse_expression_chain,
   rfl, rfl, rfl, rfl, rfl, rfl, by decide⟩

/-- C8, witness: the additive chain `1 - 2 - 3` as a chain instance. -/
theorem C8_left_associative_witness :
    parse_arithmetic_expression 10 (chainToks 1 [(("-"), 2), (("-"), 3)]) =
      .ok (leftNested 1 [(("-"), 2), (("-"), 3)], []) :=
  C8_left_associative.1 1 [(("-"), 2), (("-"), 3)] 10 (by decide) (by decide)

end CompilerConstruction
